import Mathlib

/-!
# Verification of the watchdog monitoring state engine

A shallow embedding of the repository's core monitoring code:

* `CircularBuffer` (src/utils/CircularBuffer.js) — fixed-size ring buffer;
* `StateManager` (src/monitoring/StateManager.js) — failure/recovery/flapping
  state machine with cooldown;
* `AnomalyDetector` (src/monitoring/AnomalyDetector.js) — per-service ring
  buffers with median-based outlier detection;
* `Monitor` result handling (src/monitoring/Monitor.js) — `handleCheckResult`,
  `handleFailure`, `handleRecovery`, `checkEndpoint`.

JavaScript numbers (timestamps in milliseconds, response times, config values)
are embedded as rationals `ℚ`; the arithmetic the code performs on them
(addition, subtraction, division by nonzero constants, comparisons) is exact on
the values that occur, so `ℚ` is a faithful model.  The single place where the
code can divide by zero (`deviation = responseTime / median` in
`checkAnomaly`) is embedded with an explicit `Option ℚ`, `none` standing for
the non-finite JS result (`Infinity`/`NaN`).

JavaScript `Map` objects are embedded as insertion-ordered association lists
(`JMap`), `Set` objects as insertion-ordered duplicate-free lists; `get`,
`set`, `delete`, `has`, `new Map(entries)` and `new Set(array)` are given
their ECMAScript semantics.  Side-effecting methods become pure functions that
return the updated state; `Date.now()` becomes an explicit `now` parameter.
-/

namespace Watchdog

/-- A JavaScript `Map` with string keys: an insertion-ordered association
list.  `Map.set` of an existing key updates the value in place (keeping the
original insertion position); of a fresh key it appends at the end. -/
abbrev JMap (β : Type) : Type := List (String × β)

/-- `Map.prototype.get`. -/
def mapGet {β : Type} (k : String) : JMap β → Option β
  | [] => none
  | (k', v) :: rest => if k' = k then some v else mapGet k rest

/-- `Map.prototype.set`. -/
def mapSet {β : Type} (k : String) (v : β) : JMap β → JMap β
  | [] => [(k, v)]
  | (k', v') :: rest => if k' = k then (k, v) :: rest else (k', v') :: mapSet k v rest

/-- `Map.prototype.delete`. -/
def mapDelete {β : Type} (k : String) : JMap β → JMap β
  | [] => []
  | (k', v') :: rest => if k' = k then rest else (k', v') :: mapDelete k rest

/-- `new Map(entries)`: replays the entry list through `set`. -/
def mapFromEntries {β : Type} (entries : List (String × β)) : JMap β :=
  entries.foldl (fun m e => mapSet e.1 e.2 m) []

/-- `new Set(array)`: replays the array through `add` (insertion-ordered,
duplicates collapse onto the first occurrence). -/
def setFromArray (a : List String) : List String :=
  a.foldl (fun s x => if x ∈ s then s else s ++ [x]) []

/-- The map has no duplicate keys — an invariant every JS `Map` satisfies. -/
def keysNodup {β : Type} (m : JMap β) : Prop := (m.map Prod.fst).Nodup

/-- JavaScript `x || d` for an optional numeric config field: `undefined` and
`0` are falsy and fall back to the default. -/
def jsOrNat (o : Option ℕ) (d : ℕ) : ℕ :=
  match o with
  | none => d
  | some n => if n = 0 then d else n

/-- JavaScript `x || d` for an optional rational config field. -/
def jsOrQ (o : Option ℚ) (d : ℚ) : ℚ :=
  match o with
  | none => d
  | some q => if q = 0 then d else q

/-! ## CircularBuffer (src/utils/CircularBuffer.js) -/

/-- `CircularBuffer`: `size` (capacity), backing array `buffer`, next write
position `index`, element count `count`.  The JS backing array starts as
`new Array(size)` (holes); the holes are embedded as `0`, which `getAll`
never exposes on states reached by `push`. -/
structure CircularBuffer where
  size : ℕ
  buffer : List ℚ
  index : ℕ
  count : ℕ
deriving DecidableEq, Repr

/-- The constructor body after the positivity check has passed. -/
def CircularBuffer.new (size : ℕ) : CircularBuffer :=
  { size := size, buffer := List.replicate size 0, index := 0, count := 0 }

/-- `new CircularBuffer(size)`: throws `Buffer size must be positive` when
`size <= 0`, embedded as `none`. -/
def CircularBuffer.make (size : ℕ) : Option CircularBuffer :=
  if size = 0 then none else some (CircularBuffer.new size)

/-- `push(value)`: overwrite the cell at `index`, advance `index` modulo
`size`, and grow `count` until the buffer is full. -/
def CircularBuffer.push (b : CircularBuffer) (value : ℚ) : CircularBuffer :=
  { b with
    buffer := b.buffer.set b.index value
    index := (b.index + 1) % b.size
    count := if b.count < b.size then b.count + 1 else b.count }

/-- A sequence of `push` calls, oldest first. -/
def CircularBuffer.pushList (b : CircularBuffer) (l : List ℚ) : CircularBuffer :=
  l.foldl CircularBuffer.push b

/-- `getAll()`: chronological (oldest-to-newest) readout —
`slice(0, count)` before wraparound, `slice(index) ++ slice(0, index)` after. -/
def CircularBuffer.getAll (b : CircularBuffer) : List ℚ :=
  if b.count < b.size then b.buffer.take b.count
  else b.buffer.drop b.index ++ b.buffer.take b.index

/-- `getMedian()`: sort a copy of `getAll()` numerically; `0` on empty; even
count averages the two middle elements, odd count takes the middle one. -/
def CircularBuffer.getMedian (b : CircularBuffer) : ℚ :=
  let values := b.getAll.insertionSort (· ≤ ·)
  if values.length = 0 then 0
  else
    let mid := values.length / 2
    if values.length % 2 = 0 then (values.getD (mid - 1) 0 + values.getD mid 0) / 2
    else values.getD mid 0

/-- `getAverage()`: `0` on empty, else `reduce((sum, v) => sum + v, 0) / length`. -/
def CircularBuffer.getAverage (b : CircularBuffer) : ℚ :=
  let values := b.getAll
  if values.length = 0 then 0
  else values.foldl (· + ·) 0 / values.length

/-- `getMin()`: `0` on empty, else `Math.min(...values)`. -/
def CircularBuffer.getMin (b : CircularBuffer) : ℚ :=
  match b.getAll with
  | [] => 0
  | x :: xs => xs.foldl min x

/-- `getMax()`: `0` on empty, else `Math.max(...values)`. -/
def CircularBuffer.getMax (b : CircularBuffer) : ℚ :=
  match b.getAll with
  | [] => 0
  | x :: xs => xs.foldl max x

/-- The last `n` elements of a list (all of it when `n ≥ length`): the
specification of what survives in a capacity-`n` ring after a push sequence. -/
def lastN (n : ℕ) (l : List ℚ) : List ℚ := l.drop (l.length - n)

/-- Well-formedness of a buffer state: the backing array has length `size`,
the cursor is in range, the count never exceeds capacity, and before the
first wraparound the cursor equals the count.  Every state reachable by
`push` from a positive-capacity constructor call satisfies this. -/
def CircularBuffer.WF (b : CircularBuffer) : Prop :=
  b.buffer.length = b.size ∧ b.count ≤ b.size ∧ b.index < b.size ∧
    (b.count < b.size → b.index = b.count)

/-- `toJSON()` payload: `{ size, values: getAll() }`. -/
structure BufferJSON where
  size : ℕ
  values : List ℚ
deriving DecidableEq, Repr

def CircularBuffer.toJSON (b : CircularBuffer) : BufferJSON :=
  { size := b.size, values := b.getAll }

/-- `fromJSON(json)`: run the constructor on `json.size` (which throws on a
non-positive capacity) and replay `json.values` through `push`. -/
def CircularBuffer.fromJSON (json : BufferJSON) : Option CircularBuffer :=
  match CircularBuffer.make json.size with
  | none => none
  | some b => some (b.pushList json.values)

/-! ## StateManager (src/monitoring/StateManager.js) -/

/-- A failure record: `{ firstSeen, lastAlertSent, error, consecutiveFailures }`. -/
structure FailureInfo where
  firstSeen : ℚ
  lastAlertSent : ℚ
  error : String
  consecutiveFailures : ℕ
deriving DecidableEq, Repr

/-- A state transition `{ time, state }` recorded for flapping detection. -/
structure Transition where
  time : ℚ
  state : String
deriving DecidableEq, Repr

/-- The `alerts` section of the configuration; `none` models an absent field. -/
structure AlertsConfig where
  cooldownMinutes : Option ℚ := none
  flappingThreshold : Option ℕ := none
  flappingWindowMinutes : Option ℚ := none
  recoveryNotify : Bool := false
deriving DecidableEq, Repr

/-- `StateManager.state`: the four JS collections. -/
structure StateData where
  failures : JMap FailureInfo
  flapping : JMap (List Transition)
  acknowledged : List String
  sslExpiry : JMap String
deriving DecidableEq, Repr

/-- The state a fresh `StateManager` starts from. -/
def emptyState : StateData :=
  { failures := [], flapping := [], acknowledged := [], sslExpiry := [] }

/-- `recordFailure(serviceId, error)`: returns the alert action
(`first_failure` / `ongoing_failure` / `suppressed`) and the updated state. -/
def recordFailure (cfg : AlertsConfig) (now : ℚ) (st : StateData)
    (serviceId error : String) : String × StateData :=
  match mapGet serviceId st.failures with
  | none =>
      ("first_failure",
        { st with
          failures :=
            mapSet serviceId
              ({ firstSeen := now, lastAlertSent := now, error := error,
                 consecutiveFailures := 1 })
              st.failures })
  | some existing =>
      let existing1 : FailureInfo :=
        { existing with
          consecutiveFailures := existing.consecutiveFailures + 1,
          error := error }
      let st1 : StateData := { st with failures := mapSet serviceId existing1 st.failures }
      let cooldownMs : ℚ := jsOrQ cfg.cooldownMinutes 30 * 60 * 1000
      let minutesSinceLastAlert : ℚ := (now - existing.lastAlertSent) / 1000 / 60
      if minutesSinceLastAlert ≥ cooldownMs / 60000 then
        ("ongoing_failure",
          { st1 with
            failures :=
              mapSet serviceId ({ existing1 with lastAlertSent := now }) st1.failures })
      else
        ("suppressed", st1)

/-- What `recordRecovery` returns when a failure record exists. -/
structure RecoveryInfo where
  downtimeDuration : ℚ
  failuresSeen : ℕ
  firstSeen : ℚ
deriving DecidableEq, Repr

/-- `recordRecovery(serviceId)`: `null` if no failure record exists, else the
recovery info, deleting the record. -/
def recordRecovery (now : ℚ) (st : StateData) (serviceId : String) :
    Option RecoveryInfo × StateData :=
  match mapGet serviceId st.failures with
  | none => (none, st)
  | some failure =>
      (some ({ downtimeDuration := now - failure.firstSeen,
               failuresSeen := failure.consecutiveFailures,
               firstSeen := failure.firstSeen }),
       { st with failures := mapDelete serviceId st.failures })

/-- `isFlapping(serviceId)`: false with fewer than 3 stored transitions, else
compares the count of transitions inside the trailing window against the
configured threshold. -/
def isFlapping (cfg : AlertsConfig) (now : ℚ) (st : StateData) (serviceId : String) : Bool :=
  let transitions := (mapGet serviceId st.flapping).getD []
  if transitions.length < 3 then false
  else
    let threshold := jsOrNat cfg.flappingThreshold 3
    let windowMs := jsOrQ cfg.flappingWindowMinutes 10 * 60 * 1000
    let recentTransitions := transitions.filter (fun t => now - t.time < windowMs)
    decide (threshold ≤ recentTransitions.length)

/-- `recordStateChange(serviceId, newState)`: append a transition, keep the
last 10 (`shift()` drops the oldest), and report the flap predicate. -/
def recordStateChange (cfg : AlertsConfig) (now : ℚ) (st : StateData)
    (serviceId newState : String) : Bool × StateData :=
  let transitions := (mapGet serviceId st.flapping).getD []
  let transitions1 := transitions ++ [{ time := now, state := newState }]
  let transitions2 := if transitions1.length > 10 then transitions1.drop 1 else transitions1
  let st1 : StateData := { st with flapping := mapSet serviceId transitions2 st.flapping }
  (isFlapping cfg now st1 serviceId, st1)

/-- `isAcknowledged(serviceId)`. -/
def isAcknowledged (st : StateData) (serviceId : String) : Bool :=
  st.acknowledged.contains serviceId

/-- `getFailure(serviceId)` (the `|| null` becomes the `Option`). -/
def getFailure (st : StateData) (serviceId : String) : Option FailureInfo :=
  mapGet serviceId st.failures

/-- `clearFlappingHistory(serviceId)`. -/
def clearFlappingHistory (st : StateData) (serviceId : String) : StateData :=
  { st with flapping := mapDelete serviceId st.flapping }

/-- The durable record `save()` writes: the four collections flattened to
entry arrays, plus the `lastSaved` timestamp string. -/
structure SavedState where
  failures : List (String × FailureInfo)
  flapping : List (String × List Transition)
  acknowledged : List String
  sslExpiry : List (String × String)
  lastSaved : String
deriving DecidableEq, Repr

/-- `save()`: `Array.from(map.entries())` returns the entries in insertion
order, which is the association list itself. -/
def save (nowIso : String) (st : StateData) : SavedState :=
  { failures := st.failures, flapping := st.flapping,
    acknowledged := st.acknowledged, sslExpiry := st.sslExpiry,
    lastSaved := nowIso }

/-- `load()` on an existing, well-formed file: rebuild the Maps and the Set
from the entry arrays. -/
def load (data : SavedState) : StateData :=
  { failures := mapFromEntries data.failures,
    flapping := mapFromEntries data.flapping,
    acknowledged := setFromArray data.acknowledged,
    sslExpiry := mapFromEntries data.sslExpiry }

/-! ## AnomalyDetector (src/monitoring/AnomalyDetector.js) -/

/-- The `anomaly` section of the configuration. -/
structure AnomalyConfig where
  enabled : Option Bool := none
  multiplier : Option ℚ := none
  sampleSize : Option ℕ := none
deriving DecidableEq, Repr

/-- The detector: the three resolved config fields plus one ring buffer per
service id. -/
structure AnomalyDetector where
  enabled : Bool
  multiplier : ℚ
  sampleSize : ℕ
  responseTimes : JMap CircularBuffer
deriving DecidableEq, Repr

/-- `new AnomalyDetector(config)`: `enabled = (config.anomaly?.enabled !== false)`,
`multiplier = config.anomaly?.multiplier || 3.0`,
`sampleSize = config.anomaly?.sampleSize || 20`. -/
def AnomalyDetector.new (cfg : AnomalyConfig) : AnomalyDetector :=
  { enabled := cfg.enabled != some false
    multiplier := jsOrQ cfg.multiplier 3
    sampleSize := jsOrNat cfg.sampleSize 20
    responseTimes := [] }

/-- `recordResponseTime(serviceId, responseTime)`: no-op when disabled, else
lazily create the buffer and push the sample.  The lazily created buffer has
capacity `sampleSize`, which `jsOrNat` keeps positive, so the JS constructor
cannot throw here. -/
def recordResponseTime (ad : AnomalyDetector) (serviceId : String)
    (responseTime : ℚ) : AnomalyDetector :=
  if ad.enabled = false then ad
  else
    let buffer := match mapGet serviceId ad.responseTimes with
      | none => CircularBuffer.new ad.sampleSize
      | some b => b
    { ad with responseTimes := mapSet serviceId (buffer.push responseTime) ad.responseTimes }

/-- The three shapes `checkAnomaly` returns: detection disabled, fewer than 5
samples, or a full result.  In the full result `deviation` embeds the JS
division `responseTime / median`, whose result is non-finite
(`Infinity`/`NaN`) exactly when `median = 0`; `none` stands for that
non-finite value. -/
inductive AnomalyResult where
  | disabled
  | insufficientSamples (samplesCollected samplesNeeded : ℕ)
  | checked (isAnomaly : Bool) (responseTime median average threshold multiplier : ℚ)
      (deviation : Option ℚ) (samples : ℕ)
deriving DecidableEq, Repr

/-- The `isAnomaly` field of a `checkAnomaly` result. -/
def AnomalyResult.isAnomaly : AnomalyResult → Bool
  | .disabled => false
  | .insufficientSamples _ _ => false
  | .checked a _ _ _ _ _ _ _ => a

/-- The `reason` field of a `checkAnomaly` result (`none` when absent). -/
def AnomalyResult.reason : AnomalyResult → Option String
  | .disabled => some "detection disabled"
  | .insufficientSamples _ _ => some "insufficient samples"
  | .checked _ _ _ _ _ _ _ _ => none

/-- The `deviation` field of a full `checkAnomaly` result. -/
def AnomalyResult.deviation : AnomalyResult → Option ℚ
  | .checked _ _ _ _ _ _ d _ => d
  | _ => none

/-- `checkAnomaly(serviceId, responseTime)`.  The source method only reads the
buffer (`length()`, `getMedian()`, `getAverage()`), so it is embedded as a
pure function of the detector: it cannot consume the sample or mutate any
buffer. -/
def checkAnomaly (ad : AnomalyDetector) (serviceId : String) (responseTime : ℚ) :
    AnomalyResult :=
  if ad.enabled = false then .disabled
  else
    match mapGet serviceId ad.responseTimes with
    | none => .insufficientSamples 0 5
    | some buffer =>
        if buffer.count < 5 then .insufficientSamples buffer.count 5
        else
          let median := buffer.getMedian
          let average := buffer.getAverage
          let threshold := median * ad.multiplier
          .checked (decide (responseTime > threshold)) responseTime median average
            threshold ad.multiplier
            (if median = 0 then none else some (responseTime / median)) buffer.count

/-! ## Monitor result handling (src/monitoring/Monitor.js) -/

/-- A checker result `{ healthy, responseTime, error }`. -/
structure CheckResult where
  healthy : Bool
  responseTime : ℚ
  error : String
deriving DecidableEq, Repr

/-- The notifications `Monitor` can dispatch. -/
inductive Alert where
  | flappingAlert (serviceId : String)
  | sslWarning (serviceId : String)
  | resourceWarning (resourceType : String)
  | failureAlert (serviceId action : String)
  | recoveryAlert (serviceId : String)
  | anomalyAlert (serviceId : String)
deriving DecidableEq, Repr

/-- Is this one of the alerts reporting the service down
(`sendFailureAlert` / `sendSSLWarning` / `sendResourceWarning`)? -/
def Alert.isDown : Alert → Bool
  | .sslWarning _ => true
  | .resourceWarning _ => true
  | .failureAlert _ _ => true
  | _ => false

/-- Is this a flapping alert? -/
def Alert.isFlap : Alert → Bool
  | .flappingAlert _ => true
  | _ => false

/-- `handleFailure(serviceId, service, result)`: record the failure, send a
flapping alert (and nothing else) when the service is flapping, otherwise a
down alert exactly on `first_failure`/`ongoing_failure` — dispatched as an SSL
warning, a resource warning, or a failure alert by service-id prefix. -/
def handleFailure (cfg : AlertsConfig) (hasNotifier : Bool) (now : ℚ) (st : StateData)
    (serviceId : String) (result : CheckResult) : StateData × List Alert :=
  let out := recordFailure cfg now st serviceId result.error
  let alertAction := out.1
  let st1 := out.2
  if isFlapping cfg now st1 serviceId then
    (st1, if hasNotifier then [Alert.flappingAlert serviceId] else [])
  else if alertAction = "first_failure" ∨ alertAction = "ongoing_failure" then
    (st1,
      if hasNotifier then
        if serviceId.startsWith "ssl:" then [Alert.sslWarning serviceId]
        else if serviceId.startsWith "resource:" then
          [Alert.resourceWarning ((serviceId.splitOn ":").getD 1 "")]
        else [Alert.failureAlert serviceId alertAction]
      else [])
  else (st1, [])

/-- `handleRecovery(serviceId, service)`: record the recovery; on a real
recovery optionally notify and clear the flap history. -/
def handleRecovery (cfg : AlertsConfig) (hasNotifier : Bool) (now : ℚ) (st : StateData)
    (serviceId : String) : StateData × List Alert :=
  match recordRecovery now st serviceId with
  | (none, st1) => (st1, [])
  | (some _, st1) =>
      let alerts := if cfg.recoveryNotify && hasNotifier then [Alert.recoveryAlert serviceId] else []
      (clearFlappingHistory st1 serviceId, alerts)

/-- `handleCheckResult(serviceId, service, result)`: return immediately for an
acknowledged service; otherwise record an edge-triggered state change, then
route to `handleFailure` or `handleRecovery`. -/
def handleCheckResult (cfg : AlertsConfig) (hasNotifier : Bool) (now : ℚ)
    (st : StateData) (serviceId : String) (result : CheckResult) :
    StateData × List Alert :=
  if isAcknowledged st serviceId then (st, [])
  else
    let previousFailure := getFailure st serviceId
    let wasHealthy := previousFailure.isNone
    let isHealthy := result.healthy
    let st1 :=
      if wasHealthy != isHealthy then
        (recordStateChange cfg now st serviceId (if isHealthy then "healthy" else "unhealthy")).2
      else st
    if result.healthy = false then handleFailure cfg hasNotifier now st1 serviceId result
    else if previousFailure.isSome then handleRecovery cfg hasNotifier now st1 serviceId
    else (st1, [])

/-- `checkEndpoint(endpoint)` on a completed HTTP check: on a healthy result,
record the response time, run anomaly detection and dispatch an anomaly alert
(`handleAnomaly`) when anomalous — all before `handleCheckResult`'s
acknowledgment test. -/
def checkEndpoint (cfg : AlertsConfig) (hasNotifier : Bool) (now : ℚ)
    (ad : AnomalyDetector) (st : StateData) (url : String) (result : CheckResult) :
    AnomalyDetector × StateData × List Alert :=
  let serviceId := "http:" ++ url
  let step1 :=
    if result.healthy then
      let ad1 := recordResponseTime ad serviceId result.responseTime
      let anomaly := checkAnomaly ad1 serviceId result.responseTime
      (ad1, if anomaly.isAnomaly && hasNotifier then [Alert.anomalyAlert serviceId] else [])
    else (ad, [])
  let step2 := handleCheckResult cfg hasNotifier now st serviceId result
  (step1.1, step2.1, step1.2 ++ step2.2)

/-! ## Call sequences over the State Engine -/

/-- A State Engine call considered by the existence invariant: a
`recordFailure` or a `recordRecovery` at some instant. -/
inductive Call where
  | fail (now : ℚ) (serviceId error : String)
  | recover (now : ℚ) (serviceId : String)
deriving DecidableEq, Repr

/-- Apply one call to the state (keeping only the state, not the return). -/
def applyCall (cfg : AlertsConfig) (st : StateData) : Call → StateData
  | .fail now serviceId error => (recordFailure cfg now st serviceId error).2
  | .recover now serviceId => (recordRecovery now st serviceId).2

/-- Run a call sequence from the empty state. -/
def runCalls (cfg : AlertsConfig) (l : List Call) : StateData :=
  l.foldl (applyCall cfg) emptyState

/-- The service a call is about. -/
def Call.serviceId : Call → String
  | .fail _ i _ => i
  | .recover _ i => i

/-- Is the call a `recordFailure`? -/
def Call.isFail : Call → Bool
  | .fail _ _ _ => true
  | .recover _ _ => false

/-- Spec-side predicate: the most recent call of the sequence for `id` was a
`recordFailure` (so it was not followed by a `recordRecovery` for `id`). -/
def lastCallIsFailure (id : String) (l : List Call) : Bool :=
  match l.reverse.find? (fun c => c.serviceId = id) with
  | some c => c.isFail
  | none => false

/-! ## Map lemmas -/

theorem mapGet_mapSet_self {β : Type} (k : String) (v : β) (m : JMap β) :
    mapGet k (mapSet k v m) = some v := by
  induction m with
  | nil => simp [mapGet, mapSet]
  | cons e rest ih =>
      by_cases h : e.1 = k
      · simp [mapGet, mapSet, h]
      · simp [mapGet, mapSet, h, ih]

theorem mapGet_mapSet_ne {β : Type} {k k' : String} (v : β) (m : JMap β)
    (h : k' ≠ k) : mapGet k (mapSet k' v m) = mapGet k m := by
  induction m with
  | nil => simp [mapGet, mapSet, h]
  | cons e rest ih =>
      by_cases he : e.1 = k'
      · simp [mapGet, mapSet, he, h]
      · simp only [mapSet, if_neg he]
        by_cases hek : e.1 = k
        · simp [mapGet, hek]
        · simp [mapGet, hek, ih]

theorem mapGet_mapDelete_ne {β : Type} {k k' : String} (m : JMap β)
    (h : k' ≠ k) : mapGet k (mapDelete k' m) = mapGet k m := by
  induction m with
  | nil => simp [mapDelete]
  | cons e rest ih =>
      by_cases he : e.1 = k'
      · have hek : ¬ e.1 = k := by rw [he]; exact h
        simp [mapDelete, mapGet, he, hek, h]
      · simp only [mapDelete, if_neg he]
        by_cases hek : e.1 = k
        · simp [mapGet, hek]
        · simp [mapGet, hek, ih]

theorem mapDelete_sublist {β : Type} (k : String) (m : JMap β) :
    (mapDelete k m).Sublist m := by
  induction m with
  | nil => simp [mapDelete]
  | cons e rest ih =>
      by_cases he : e.1 = k
      · simp only [mapDelete, if_pos he]
        exact (List.sublist_cons_self e rest)
      · simp only [mapDelete, if_neg he]
        exact ih.cons₂ e

theorem mapGet_eq_none_of_not_mem {β : Type} {k : String} {m : JMap β}
    (h : k ∉ m.map Prod.fst) : mapGet k m = none := by
  induction m with
  | nil => simp [mapGet]
  | cons e rest ih =>
      simp only [List.map_cons, List.mem_cons, not_or] at h
      have : ¬ e.1 = k := fun hk => h.1 hk.symm
      simp [mapGet, this, ih h.2]

theorem mapGet_mapDelete_self {β : Type} {k : String} {m : JMap β}
    (hm : keysNodup m) : mapGet k (mapDelete k m) = none := by
  induction m with
  | nil => simp [mapDelete, mapGet]
  | cons e rest ih =>
      have hrest : keysNodup rest := (List.nodup_cons.mp hm).2
      by_cases he : e.1 = k
      · simp only [mapDelete, if_pos he]
        have hnotin : e.1 ∉ rest.map Prod.fst := (List.nodup_cons.mp hm).1
        rw [he] at hnotin
        exact mapGet_eq_none_of_not_mem hnotin
      · simp only [mapDelete, if_neg he]
        simp [mapGet, he, ih hrest]

theorem mapSet_mapSet_self {β : Type} (k : String) (v v' : β) (m : JMap β) :
    mapSet k v' (mapSet k v m) = mapSet k v' m := by
  induction m with
  | nil => simp [mapSet]
  | cons e rest ih =>
      by_cases he : e.1 = k
      · simp [mapSet, he]
      · simp [mapSet, he, ih]

theorem keysNodup_mapSet {β : Type} (k : String) (v : β) {m : JMap β}
    (hm : keysNodup m) : keysNodup (mapSet k v m) := by
  induction m with
  | nil => simp [mapSet, keysNodup]
  | cons e rest ih =>
      have h1 := (List.nodup_cons.mp hm).1
      have h2 := (List.nodup_cons.mp hm).2
      by_cases he : e.1 = k
      · simp only [mapSet, if_pos he]
        refine List.nodup_cons.mpr ⟨?_, h2⟩
        rw [← he]; exact h1
      · simp only [mapSet, if_neg he]
        refine List.nodup_cons.mpr ⟨?_, ih h2⟩
        intro hmem
        -- membership of e.1 among keys of (mapSet k v rest)
        have : e.1 ∈ rest.map Prod.fst ∨ e.1 = k := by
          clear ih h1 hm
          induction rest with
          | nil => simpa [mapSet] using hmem
          | cons e' rest' ih' =>
              by_cases he' : e'.1 = k
              · simp only [mapSet, if_pos he', List.map_cons, List.mem_cons] at hmem
                rcases hmem with h | h
                · exact Or.inr h
                · exact Or.inl (List.mem_cons.mpr (Or.inr h))
              · simp only [mapSet, if_neg he', List.map_cons, List.mem_cons] at hmem
                rcases hmem with h | h
                · exact Or.inl (List.mem_cons.mpr (Or.inl h))
                · rcases ih' (List.nodup_cons.mp h2).2 h with h' | h'
                  · exact Or.inl (List.mem_cons.mpr (Or.inr h'))
                  · exact Or.inr h'
        rcases this with h | h
        · exact h1 h
        · exact he h

theorem keysNodup_mapDelete {β : Type} (k : String) {m : JMap β}
    (hm : keysNodup m) : keysNodup (mapDelete k m) :=
  ((mapDelete_sublist k m).map Prod.fst).nodup hm

/-! ## C1: the recordFailure contract -/

/-- The code's cooldown test `(now - lastAlertSent)/1000/60 >= cooldownMs/60000`
says exactly that `cooldownMinutes` minutes have elapsed. -/
theorem cooldown_condition_iff (x cd : ℚ) :
    (x / 1000 / 60 ≥ (cd * 60 * 1000) / 60000) ↔ cd * 60000 ≤ x := by
  rw [ge_iff_le, div_div]
  norm_num
  rw [div_le_div_iff₀ (by norm_num) (by norm_num)]
  constructor <;> intro h <;> nlinarith

/-- C1.  `recordFailure` contract: with no existing record it creates
`{firstSeen = lastAlertSent = now, consecutiveFailures = 1}` and returns
`first_failure`; with an existing record it increments `consecutiveFailures`
and replaces the error, returning `ongoing_failure` (and setting
`lastAlertSent` to `now`) exactly when at least the effective
`cooldownMinutes` (default 30) have elapsed since `lastAlertSent`, and
`suppressed` (leaving `firstSeen` and `lastAlertSent` unchanged) otherwise. -/
theorem recordFailure_contract (cfg : AlertsConfig) (now : ℚ) (st : StateData)
    (serviceId error : String) :
    (mapGet serviceId st.failures = none →
       recordFailure cfg now st serviceId error =
         ("first_failure",
          { st with failures := mapSet serviceId ⟨now, now, error, 1⟩ st.failures })) ∧
    (∀ r : FailureInfo, mapGet serviceId st.failures = some r →
       (jsOrQ cfg.cooldownMinutes 30 * 60000 ≤ now - r.lastAlertSent →
          recordFailure cfg now st serviceId error =
            ("ongoing_failure",
             { st with
               failures :=
                 mapSet serviceId ⟨r.firstSeen, now, error, r.consecutiveFailures + 1⟩
                   st.failures })) ∧
       (now - r.lastAlertSent < jsOrQ cfg.cooldownMinutes 30 * 60000 →
          recordFailure cfg now st serviceId error =
            ("suppressed",
             { st with
               failures :=
                 mapSet serviceId
                   ⟨r.firstSeen, r.lastAlertSent, error, r.consecutiveFailures + 1⟩
                   st.failures }))) := by
  constructor
  · intro h
    simp only [recordFailure, h]
  · intro r hr
    constructor
    · intro hcd
      have hcond := (cooldown_condition_iff (now - r.lastAlertSent)
        (jsOrQ cfg.cooldownMinutes 30)).mpr hcd
      simp only [recordFailure, hr, if_pos hcond, mapSet_mapSet_self]
    · intro hcd
      have hcond : ¬ ((now - r.lastAlertSent) / 1000 / 60 ≥
          (jsOrQ cfg.cooldownMinutes 30 * 60 * 1000) / 60000) := by
        rw [cooldown_condition_iff]
        exact not_le.mpr hcd
      simp only [recordFailure, hr, if_neg hcond]

/-- Witness for C1: all three branches at concrete inputs (30-minute default
cooldown; the second call 1 800 000 ms = 30 min later re-alerts, 5 ms later is
suppressed). -/
theorem recordFailure_contract_witness :
    recordFailure {} 0 emptyState "svc" "down" =
      ("first_failure", { emptyState with failures := [("svc", ⟨0, 0, "down", 1⟩)] }) ∧
    recordFailure {} 1800000 ({ emptyState with failures := [("svc", ⟨0, 0, "down", 1⟩)] })
        "svc" "err" =
      ("ongoing_failure", { emptyState with failures := [("svc", ⟨0, 1800000, "err", 2⟩)] }) ∧
    recordFailure {} 5 ({ emptyState with failures := [("svc", ⟨0, 0, "down", 1⟩)] })
        "svc" "err" =
      ("suppressed", { emptyState with failures := [("svc", ⟨0, 0, "err", 2⟩)] }) := by
  refine ⟨?_, ?_, ?_⟩
  · have h := (recordFailure_contract {} 0 emptyState "svc" "down").1 rfl
    simpa [emptyState, mapSet] using h
  · have h := ((recordFailure_contract {} 1800000
        ({ emptyState with failures := [("svc", ⟨0, 0, "down", 1⟩)] }) "svc" "err").2
        ⟨0, 0, "down", 1⟩ rfl).1 (by norm_num [jsOrQ])
    simpa [emptyState, mapSet] using h
  · have h := ((recordFailure_contract {} 5
        ({ emptyState with failures := [("svc", ⟨0, 0, "down", 1⟩)] }) "svc" "err").2
        ⟨0, 0, "down", 1⟩ rfl).2 (by norm_num [jsOrQ])
    simpa [emptyState, mapSet] using h

/-! ## C7: the recordRecovery contract -/

/-- C7.  `recordRecovery` contract: with no failure record it returns `null`
and leaves the entire state unchanged; with a record it returns
`downtimeDuration = now - firstSeen` and `failuresSeen = consecutiveFailures`
and deletes exactly that record. -/
theorem recordRecovery_contract (now : ℚ) (st : StateData) (serviceId : String) :
    (mapGet serviceId st.failures = none →
       recordRecovery now st serviceId = (none, st)) ∧
    (∀ r : FailureInfo, mapGet serviceId st.failures = some r →
       recordRecovery now st serviceId =
         (some ⟨now - r.firstSeen, r.consecutiveFailures, r.firstSeen⟩,
          { st with failures := mapDelete serviceId st.failures }) ∧
       (keysNodup st.failures →
          mapGet serviceId (recordRecovery now st serviceId).2.failures = none)) := by
  constructor
  · intro h
    simp only [recordRecovery, h]
  · intro r hr
    constructor
    · simp only [recordRecovery, hr]
    · intro hnd
      simp only [recordRecovery, hr]
      exact mapGet_mapDelete_self hnd

/-! ## C2: failure-record existence across call sequences -/

theorem runCalls_append (cfg : AlertsConfig) (l : List Call) (c : Call) :
    runCalls cfg (l ++ [c]) = applyCall cfg (runCalls cfg l) c := by
  simp [runCalls, List.foldl_append]

theorem lastCallIsFailure_append_same {id : String} (l : List Call) {c : Call}
    (h : c.serviceId = id) : lastCallIsFailure id (l ++ [c]) = c.isFail := by
  simp [lastCallIsFailure, List.find?, h]

theorem lastCallIsFailure_append_ne {id : String} (l : List Call) {c : Call}
    (h : c.serviceId ≠ id) :
    lastCallIsFailure id (l ++ [c]) = lastCallIsFailure id l := by
  simp [lastCallIsFailure, List.find?, h]

theorem recordFailure_failures_eq_mapSet (cfg : AlertsConfig) (now : ℚ)
    (st : StateData) (serviceId error : String) :
    ∃ v : FailureInfo,
      (recordFailure cfg now st serviceId error).2.failures =
        mapSet serviceId v st.failures := by
  cases hr : mapGet serviceId st.failures with
  | none => exact ⟨⟨now, now, error, 1⟩, by simp only [recordFailure, hr]⟩
  | some r =>
      by_cases hc : (now - r.lastAlertSent) / 1000 / 60 ≥
          (jsOrQ cfg.cooldownMinutes 30 * 60 * 1000) / 60000
      · refine ⟨⟨r.firstSeen, now, error, r.consecutiveFailures + 1⟩, ?_⟩
        simp only [recordFailure, hr, if_pos hc, mapSet_mapSet_self]
      · refine ⟨⟨r.firstSeen, r.lastAlertSent, error, r.consecutiveFailures + 1⟩, ?_⟩
        simp only [recordFailure, hr, if_neg hc]

theorem recordRecovery_get_self {now : ℚ} {st : StateData} {serviceId : String}
    (hnd : keysNodup st.failures) :
    mapGet serviceId (recordRecovery now st serviceId).2.failures = none := by
  cases hr : mapGet serviceId st.failures with
  | none => simp [recordRecovery, hr]
  | some r =>
      simp only [recordRecovery, hr]
      exact mapGet_mapDelete_self hnd

/-! ## C3: the flapping predicate -/

/-- C3 counterexample.  With `flappingThreshold` configured to 2 and two
transitions inside the trailing default 10-minute window, the claimed
predicate (at least `flappingThreshold` in-window transitions) holds, yet
`isFlapping` returns `false`: the code first requires at least 3 stored
transitions regardless of the configured threshold. -/
theorem isFlapping_contract_cex :
    (jsOrNat (AlertsConfig.flappingThreshold { flappingThreshold := some 2 }) 3 ≤
      (((mapGet "a" (StateData.flapping
          ({ emptyState with
             flapping := [("a", [⟨0, "unhealthy"⟩, ⟨60000, "healthy"⟩])] }))).getD []).filter
        (fun t => (120000 : ℚ) - t.time <
          jsOrQ (AlertsConfig.flappingWindowMinutes { flappingThreshold := some 2 }) 10
            * 60 * 1000)).length) ∧
    isFlapping { flappingThreshold := some 2 } 120000
      ({ emptyState with
         flapping := [("a", [⟨0, "unhealthy"⟩, ⟨60000, "healthy"⟩])] }) "a" = false := by
  constructor
  · norm_num [jsOrNat, jsOrQ, mapGet, emptyState, List.filter]
  · norm_num [isFlapping, mapGet, emptyState]

/-- C3 (amended).  `isFlapping(id)` is true exactly when the stored transition
list for `id` has at least 3 entries and at least the effective
`flappingThreshold` (default 3) of them fall inside the trailing
`flappingWindowMinutes` (default 10) window; with the defaults this coincides
with the claim, so 3 alternating in-window transitions make it true and only
2 make it false. -/
theorem isFlapping_amended (cfg : AlertsConfig) (now : ℚ) (st : StateData) (id : String) :
    (isFlapping cfg now st id = true ↔
       3 ≤ ((mapGet id st.flapping).getD []).length ∧
       jsOrNat cfg.flappingThreshold 3 ≤
         (((mapGet id st.flapping).getD []).filter
           (fun t => now - t.time < jsOrQ cfg.flappingWindowMinutes 10 * 60 * 1000)).length) ∧
    isFlapping {} 500000
      ({ emptyState with
         flapping := [("a", [⟨0, "unhealthy"⟩, ⟨100000, "healthy"⟩,
           ⟨200000, "unhealthy"⟩])] }) "a" = true ∧
    isFlapping {} 500000
      ({ emptyState with
         flapping := [("a", [⟨0, "unhealthy"⟩, ⟨100000, "healthy"⟩])] }) "a" = false := by
  refine ⟨?_, ?_, ?_⟩
  · constructor
    · simp only [isFlapping]
      by_cases h : ((mapGet id st.flapping).getD []).length < 3
      · simp [h]
      · simp only [if_neg h, decide_eq_true_eq]
        intro hth
        exact ⟨Nat.le_of_not_lt h, hth⟩
    · rintro ⟨h3, hth⟩
      simp only [isFlapping, if_neg (Nat.not_lt.mpr h3)]
      exact decide_eq_true hth
  · norm_num [isFlapping, mapGet, emptyState, jsOrNat, jsOrQ, List.filter]
  · norm_num [isFlapping, mapGet, emptyState]

theorem recordRecovery_get_ne {now : ℚ} {st : StateData} {serviceId other : String}
    (h : serviceId ≠ other) :
    mapGet other (recordRecovery now st serviceId).2.failures =
      mapGet other st.failures := by
  cases hr : mapGet serviceId st.failures with
  | none => simp [recordRecovery, hr]
  | some r =>
      simp only [recordRecovery, hr]
      exact mapGet_mapDelete_ne _ h

theorem keysNodup_applyCall (cfg : AlertsConfig) (st : StateData) (c : Call)
    (hnd : keysNodup st.failures) : keysNodup (applyCall cfg st c).failures := by
  cases c with
  | fail now serviceId error =>
      obtain ⟨v, hv⟩ := recordFailure_failures_eq_mapSet cfg now st serviceId error
      rw [applyCall, hv]
      exact keysNodup_mapSet _ _ hnd
  | recover now serviceId =>
      cases hr : mapGet serviceId st.failures with
      | none => simpa [applyCall, recordRecovery, hr] using hnd
      | some r =>
          simp only [applyCall, recordRecovery, hr]
          exact keysNodup_mapDelete _ hnd

theorem length_filter_key_le_one {β : Type} {m : JMap β} (id : String)
    (hnd : keysNodup m) : (m.filter (fun e => e.1 = id)).length ≤ 1 := by
  induction m with
  | nil => simp
  | cons e rest ih =>
      have h1 := (List.nodup_cons.mp hnd).1
      have h2 := (List.nodup_cons.mp hnd).2
      by_cases he : e.1 = id
      · have hrest : rest.filter (fun e => e.1 = id) = [] := by
          rw [List.filter_eq_nil_iff]
          intro a ha
          simp only [decide_eq_true_eq]
          intro hk
          exact h1 (by rw [he, ← hk]; exact List.mem_map_of_mem Prod.fst ha)
        simp [List.filter, he, hrest]
      · simpa [List.filter, he] using ih h2

/-- C2.  Existence invariant: after any finite `recordFailure`/`recordRecovery`
sequence from the empty state, a failure record exists for `id` iff the most
recent call for `id` was a `recordFailure`; and at every point at most one
record exists per service id. -/
theorem failureRecord_existence (cfg : AlertsConfig) (l : List Call) (id : String) :
    ((mapGet id (runCalls cfg l).failures).isSome = lastCallIsFailure id l) ∧
    ((runCalls cfg l).failures.filter (fun e => e.1 = id)).length ≤ 1 := by
  have main : keysNodup (runCalls cfg l).failures ∧
      ∀ j : String, (mapGet j (runCalls cfg l).failures).isSome = lastCallIsFailure j l := by
    induction l using List.reverseRecOn with
    | nil => exact ⟨List.nodup_nil, fun j => by simp [runCalls, emptyState, mapGet, lastCallIsFailure]⟩
    | append_singleton l c ih =>
        obtain ⟨ihnd, ihget⟩ := ih
        refine ⟨?_, ?_⟩
        · rw [runCalls_append]
          exact keysNodup_applyCall cfg _ c ihnd
        · intro j
          rw [runCalls_append]
          by_cases hj : c.serviceId = j
          · rw [lastCallIsFailure_append_same l hj]
            cases c with
            | fail now serviceId error =>
                obtain ⟨v, hv⟩ :=
                  recordFailure_failures_eq_mapSet cfg now (runCalls cfg l) serviceId error
                simp only [applyCall, hv, Call.isFail]
                rw [Call.serviceId] at hj
                rw [hj, mapGet_mapSet_self]
                rfl
            | recover now serviceId =>
                simp only [applyCall, Call.isFail]
                rw [Call.serviceId] at hj
                subst hj
                rw [recordRecovery_get_self ihnd]
                rfl
          · rw [lastCallIsFailure_append_ne l hj, ← ihget j]
            cases c with
            | fail now serviceId error =>
                obtain ⟨v, hv⟩ :=
                  recordFailure_failures_eq_mapSet cfg now (runCalls cfg l) serviceId error
                rw [Call.serviceId] at hj
                simp only [applyCall, hv, mapGet_mapSet_ne _ _ hj]
            | recover now serviceId =>
                rw [Call.serviceId] at hj
                simp only [applyCall, recordRecovery_get_ne hj]
  exact ⟨main.2 id, length_filter_key_le_one id main.1⟩

/-! ## C4: acknowledged services -/

/-- C4 counterexample.  For an acknowledged service with an unhealthy result,
`handleCheckResult` records nothing at all: the resulting state is unchanged
(no failure record is created and no transition is logged), refuting the
claim that State Engine bookkeeping is still recorded. -/
theorem handleCheckResult_acknowledged_cex :
    handleCheckResult {} true 0 ({ emptyState with acknowledged := ["a"] }) "a"
        ⟨false, 0, "down"⟩ =
      ({ emptyState with acknowledged := ["a"] }, []) ∧
    mapGet "a" (handleCheckResult {} true 0 ({ emptyState with acknowledged := ["a"] }) "a"
        ⟨false, 0, "down"⟩).1.failures = none := by
  constructor
  · rfl
  · rfl

/-- C4 (amended).  If the ServiceId is acknowledged, `handleCheckResult`
returns immediately: no bookkeeping (no failure record, no state transition)
is recorded and no notification is dispatched from the result pipeline.
Performance-anomaly alerts, however, are dispatched by `checkEndpoint` before
the acknowledgment test and are not suppressed: an acknowledged endpoint with
enough history and an anomalous healthy sample still produces exactly one
anomaly alert. -/
theorem handleCheckResult_acknowledged_amended :
    (∀ (cfg : AlertsConfig) (hasNotifier : Bool) (now : ℚ) (st : StateData)
        (serviceId : String) (result : CheckResult),
       isAcknowledged st serviceId = true →
       handleCheckResult cfg hasNotifier now st serviceId result = (st, [])) ∧
    (checkEndpoint {} true 0
        ({ enabled := true, multiplier := 3, sampleSize := 6,
           responseTimes :=
             [("http:u", CircularBuffer.pushList (CircularBuffer.new 6)
               [100, 100, 100, 100, 100])] })
        ({ emptyState with acknowledged := ["http:u"] }) "u" ⟨true, 400, ""⟩).2.2 =
      [Alert.anomalyAlert "http:u"] := by
  have hmain : ∀ (cfg : AlertsConfig) (hasNotifier : Bool) (now : ℚ) (st : StateData)
      (serviceId : String) (result : CheckResult),
      isAcknowledged st serviceId = true →
      handleCheckResult cfg hasNotifier now st serviceId result = (st, []) := by
    intro cfg hasNotifier now st serviceId result hack
    simp only [handleCheckResult, hack, if_pos]
  refine ⟨hmain, ?_⟩
  have hmed :
      (checkAnomaly
        (recordResponseTime
          ({ enabled := true, multiplier := 3, sampleSize := 6,
             responseTimes :=
               [("http:u", CircularBuffer.pushList (CircularBuffer.new 6)
                 [100, 100, 100, 100, 100])] })
          "http:u" 400) "http:u" 400).isAnomaly = true := by
    norm_num [checkAnomaly, recordResponseTime, mapGet, mapSet,
      CircularBuffer.pushList, CircularBuffer.new, CircularBuffer.push,
      CircularBuffer.getAll, CircularBuffer.getMedian, CircularBuffer.getAverage,
      List.insertionSort, List.orderedInsert, AnomalyResult.isAnomaly]
  have hid : "http:" ++ "u" = "http:u" := rfl
  have hhcr := hmain {} true 0 ({ emptyState with acknowledged := ["http:u"] })
    "http:u" ⟨true, 400, ""⟩ rfl
  simp only [checkEndpoint, hid, hhcr, hmed]
  simp

/-- Witness for C4: the amended no-op behaviour applied at a concrete
acknowledged service. -/
theorem handleCheckResult_acknowledged_witness :
    handleCheckResult {} true 7 ({ emptyState with acknowledged := ["b"] }) "b"
        ⟨true, 1, ""⟩ =
      ({ emptyState with acknowledged := ["b"] }, []) :=
  handleCheckResult_acknowledged_amended.1 {} true 7
    ({ emptyState with acknowledged := ["b"] }) "b" ⟨true, 1, ""⟩ rfl

/-! ## C5: flapping alerts replace failure alerts -/

/-- C5.  `handleFailure` (with a notifier attached) always applies
`recordFailure`; when the service is then flapping it emits exactly the one
flapping alert and no down alert; when it is not flapping it emits exactly
one down alert (and no flapping alert) iff the action was `first_failure` or
`ongoing_failure`, and nothing on `suppressed`. -/
theorem handleFailure_contract (cfg : AlertsConfig) (now : ℚ) (st : StateData)
    (serviceId : String) (result : CheckResult) :
    (handleFailure cfg true now st serviceId result).1 =
      (recordFailure cfg now st serviceId result.error).2 ∧
    (isFlapping cfg now (recordFailure cfg now st serviceId result.error).2 serviceId = true →
       (handleFailure cfg true now st serviceId result).2 = [Alert.flappingAlert serviceId] ∧
       ((handleFailure cfg true now st serviceId result).2.countP Alert.isDown = 0)) ∧
    (isFlapping cfg now (recordFailure cfg now st serviceId result.error).2 serviceId = false →
       (((recordFailure cfg now st serviceId result.error).1 = "first_failure" ∨
         (recordFailure cfg now st serviceId result.error).1 = "ongoing_failure") →
          (handleFailure cfg true now st serviceId result).2.countP Alert.isDown = 1 ∧
          (handleFailure cfg true now st serviceId result).2.countP Alert.isFlap = 0) ∧
       ((recordFailure cfg now st serviceId result.error).1 = "suppressed" →
          (handleFailure cfg true now st serviceId result).2 = [])) := by
  have hdown_not_flap : ∀ a : Alert, a.isDown = true → a.isFlap = false := by
    intro a
    cases a <;> simp [Alert.isDown, Alert.isFlap]
  cases hrf : recordFailure cfg now st serviceId result.error with
  | mk action st1 =>
  simp only [hrf]
  by_cases hflap : isFlapping cfg now st1 serviceId = true
  · have hout : handleFailure cfg true now st serviceId result =
        (st1, [Alert.flappingAlert serviceId]) := by
      simp [handleFailure, hrf, hflap]
    rw [hout]
    refine ⟨rfl, fun _ => ⟨rfl, by simp [Alert.isDown]⟩,
      fun h => absurd (hflap.symm.trans h) (by decide)⟩
  · have hflap' : isFlapping cfg now st1 serviceId = false := by
      simpa using hflap
    by_cases hact : action = "first_failure" ∨ action = "ongoing_failure"
    · have hlist : ∃ a : Alert, a.isDown = true ∧
          handleFailure cfg true now st serviceId result = (st1, [a]) := by
        by_cases hssl : serviceId.startsWith "ssl:" = true
        · exact ⟨Alert.sslWarning serviceId, rfl,
            by simp [handleFailure, hrf, hflap', hact, hssl]⟩
        · by_cases hres : serviceId.startsWith "resource:" = true
          · exact ⟨Alert.resourceWarning ((serviceId.splitOn ":").getD 1 ""), rfl,
              by simp [handleFailure, hrf, hflap', hact, hssl, hres]⟩
          · exact ⟨Alert.failureAlert serviceId action, rfl,
              by simp [handleFailure, hrf, hflap', hact, hssl, hres]⟩
      obtain ⟨a, ha, hout⟩ := hlist
      rw [hout]
      refine ⟨rfl, fun h => absurd (hflap'.symm.trans h) (by decide),
        fun _ => ⟨fun _ => ?_, fun hs => ?_⟩⟩
      · simp [List.countP_cons, ha, hdown_not_flap a ha]
      · rcases hact with h1 | h1 <;> exact absurd (hs.symm.trans h1) (by decide)
    · have hout : handleFailure cfg true now st serviceId result = (st1, []) := by
        simp only [handleFailure, hrf, hflap', Bool.false_eq_true, if_false, if_neg hact]
      rw [hout]
      exact ⟨rfl, fun h => absurd (hflap'.symm.trans h) (by decide),
        fun _ => ⟨fun h => absurd h hact, fun _ => rfl⟩⟩

/-- Witness for C5: a first failure of a fresh, non-flapping service emits
exactly one down alert and no flapping alert. -/
theorem handleFailure_contract_witness :
    (handleFailure {} true 0 emptyState "svc" ⟨false, 0, "down"⟩).2.countP Alert.isDown = 1 ∧
    (handleFailure {} true 0 emptyState "svc" ⟨false, 0, "down"⟩).2.countP Alert.isFlap = 0 :=
  ((handleFailure_contract {} 0 emptyState "svc" ⟨false, 0, "down"⟩).2.2 rfl).1 (Or.inl rfl)

/-- Witness for C7: both branches at concrete inputs. -/
theorem recordRecovery_contract_witness :
    recordRecovery 100 emptyState "svc" = (none, emptyState) ∧
    recordRecovery 100 ({ emptyState with failures := [("svc", ⟨40, 50, "x", 3⟩)] }) "svc" =
      (some ⟨60, 3, 40⟩, emptyState) := by
  constructor
  · exact (recordRecovery_contract 100 emptyState "svc").1 rfl
  · have h := ((recordRecovery_contract 100
        ({ emptyState with failures := [("svc", ⟨40, 50, "x", 3⟩)] }) "svc").2
        ⟨40, 50, "x", 3⟩ rfl).1
    have h60 : (100 : ℚ) - 40 = 60 := by norm_num
    simpa [emptyState, mapDelete, h60] using h

/-! ## C6: the anomaly-check contract -/

/-- C6.  With detection enabled, `checkAnomaly(id, t)` returns a non-anomaly
with reason `insufficient samples` whenever fewer than 5 samples are recorded
for `id`; with at least 5 samples its `isAnomaly` is `t > median * multiplier`
and its `deviation` is `t / median` (for a nonzero median).  The embedded
function is pure in the detector — the source method only reads the buffer —
so the call cannot consume `t` as a sample or mutate any buffer. -/
theorem checkAnomaly_contract (ad : AnomalyDetector) (serviceId : String) (t : ℚ)
    (hen : ad.enabled = true) :
    ((mapGet serviceId ad.responseTimes).elim 0 CircularBuffer.count < 5 →
       (checkAnomaly ad serviceId t).isAnomaly = false ∧
       (checkAnomaly ad serviceId t).reason = some "insufficient samples") ∧
    (∀ b : CircularBuffer, mapGet serviceId ad.responseTimes = some b → 5 ≤ b.count →
       ((checkAnomaly ad serviceId t).isAnomaly = true ↔ t > b.getMedian * ad.multiplier) ∧
       (b.getMedian ≠ 0 →
          (checkAnomaly ad serviceId t).deviation = some (t / b.getMedian))) := by
  have hne : ¬ ad.enabled = false := by rw [hen]; decide
  constructor
  · intro hlt
    cases hb : mapGet serviceId ad.responseTimes with
    | none =>
        simp only [checkAnomaly, if_neg hne, hb]
        exact ⟨rfl, rfl⟩
    | some b =>
        rw [hb] at hlt
        simp only [Option.elim] at hlt
        simp only [checkAnomaly, if_neg hne, hb, if_pos hlt]
        exact ⟨rfl, rfl⟩
  · intro b hb h5
    have hlt : ¬ b.count < 5 := Nat.not_lt.mpr h5
    simp only [checkAnomaly, if_neg hne, hb, if_neg hlt]
    constructor
    · simp [AnomalyResult.isAnomaly]
    · intro hm
      simp [AnomalyResult.deviation, hm]

/-- Witness for C6: a fresh detector reports `insufficient samples`; after 10
recorded samples of 100 ms, `checkAnomaly(id, 400)` is an anomaly with
deviation 4. -/
theorem checkAnomaly_contract_witness :
    ((checkAnomaly (AnomalyDetector.new {}) "s" 400).isAnomaly = false ∧
     (checkAnomaly (AnomalyDetector.new {}) "s" 400).reason = some "insufficient samples") ∧
    ((checkAnomaly
        ({ enabled := true, multiplier := 3, sampleSize := 20,
           responseTimes :=
             [("s", CircularBuffer.pushList (CircularBuffer.new 20)
               [100, 100, 100, 100, 100, 100, 100, 100, 100, 100])] })
        "s" 400).isAnomaly = true ∧
     (checkAnomaly
        ({ enabled := true, multiplier := 3, sampleSize := 20,
           responseTimes :=
             [("s", CircularBuffer.pushList (CircularBuffer.new 20)
               [100, 100, 100, 100, 100, 100, 100, 100, 100, 100])] })
        "s" 400).deviation = some 4) := by
  constructor
  · exact (checkAnomaly_contract (AnomalyDetector.new {}) "s" 400 rfl).1
      (by norm_num [AnomalyDetector.new, mapGet])
  · have hmed :
        (CircularBuffer.pushList (CircularBuffer.new 20)
          [100, 100, 100, 100, 100, 100, 100, 100, 100, 100]).getMedian = 100 := by
      norm_num [CircularBuffer.pushList, CircularBuffer.new, CircularBuffer.push,
        CircularBuffer.getAll, CircularBuffer.getMedian,
        List.insertionSort, List.orderedInsert]
    have h := (checkAnomaly_contract
      ({ enabled := true, multiplier := 3, sampleSize := 20,
         responseTimes :=
           [("s", CircularBuffer.pushList (CircularBuffer.new 20)
             [100, 100, 100, 100, 100, 100, 100, 100, 100, 100])] })
      "s" 400 rfl).2
      (CircularBuffer.pushList (CircularBuffer.new 20)
        [100, 100, 100, 100, 100, 100, 100, 100, 100, 100]) rfl (by decide)
    constructor
    · exact h.1.mpr (by rw [hmed]; norm_num)
    · rw [h.2 (by rw [hmed]; norm_num), hmed]
      norm_num

/-! ## C8: the ring-buffer statistics -/

/-- C8.  All four statistics return 0 on an empty buffer; on a non-empty
buffer the median is the middle element (odd count) or the average of the two
middle elements (even count) of a sorted copy of `getAll()`; in particular the
medians of `[100,150,120]`, `[1,2,3,4]` and `[100,100,105,98,102,5000]` are
`120`, `5/2` and `101` (the large outlier does not drag the median to ≈742). -/
theorem getMedian_contract (b : CircularBuffer) :
    (b.getAll = [] →
       b.getMedian = 0 ∧ b.getAverage = 0 ∧ b.getMin = 0 ∧ b.getMax = 0) ∧
    (b.getAll ≠ [] → ∃ s : List ℚ, s.Perm b.getAll ∧ s.Sorted (· ≤ ·) ∧
       b.getMedian = (if s.length % 2 = 0
         then (s.getD (s.length / 2 - 1) 0 + s.getD (s.length / 2) 0) / 2
         else s.getD (s.length / 2) 0)) ∧
    (CircularBuffer.pushList (CircularBuffer.new 10) [100, 150, 120]).getMedian = 120 ∧
    (CircularBuffer.pushList (CircularBuffer.new 10) [1, 2, 3, 4]).getMedian = 5/2 ∧
    (CircularBuffer.pushList (CircularBuffer.new 10)
      [100, 100, 105, 98, 102, 5000]).getMedian = 101 := by
  refine ⟨?_, ?_, ?_, ?_, ?_⟩
  · intro h
    refine ⟨?_, ?_, ?_, ?_⟩
    · simp [CircularBuffer.getMedian, h]
    · simp [CircularBuffer.getAverage, h]
    · simp [CircularBuffer.getMin, h]
    · simp [CircularBuffer.getMax, h]
  · intro h
    refine ⟨b.getAll.insertionSort (· ≤ ·), List.perm_insertionSort _ _,
      List.sorted_insertionSort _ _, ?_⟩
    have hlen : (b.getAll.insertionSort (· ≤ ·)).length ≠ 0 := by
      rw [(List.perm_insertionSort (· ≤ ·) b.getAll).length_eq]
      exact fun hl => h (List.eq_nil_of_length_eq_zero hl)
    simp only [CircularBuffer.getMedian, if_neg hlen]
  · norm_num [CircularBuffer.pushList, CircularBuffer.new, CircularBuffer.push,
      CircularBuffer.getAll, CircularBuffer.getMedian,
      List.insertionSort, List.orderedInsert]
  · norm_num [CircularBuffer.pushList, CircularBuffer.new, CircularBuffer.push,
      CircularBuffer.getAll, CircularBuffer.getMedian,
      List.insertionSort, List.orderedInsert]
  · norm_num [CircularBuffer.pushList, CircularBuffer.new, CircularBuffer.push,
      CircularBuffer.getAll, CircularBuffer.getMedian,
      List.insertionSort, List.orderedInsert]

/-- Witness for C8: the empty branch at a fresh buffer and the non-empty
branch at a two-element buffer. -/
theorem getMedian_contract_witness :
    ((CircularBuffer.new 5).getMedian = 0 ∧ (CircularBuffer.new 5).getAverage = 0 ∧
     (CircularBuffer.new 5).getMin = 0 ∧ (CircularBuffer.new 5).getMax = 0) ∧
    (∃ s : List ℚ,
       s.Perm (CircularBuffer.pushList (CircularBuffer.new 5) [3, 1]).getAll ∧
       s.Sorted (· ≤ ·) ∧
       (CircularBuffer.pushList (CircularBuffer.new 5) [3, 1]).getMedian =
         (if s.length % 2 = 0
          then (s.getD (s.length / 2 - 1) 0 + s.getD (s.length / 2) 0) / 2
          else s.getD (s.length / 2) 0)) := by
  constructor
  · exact (getMedian_contract (CircularBuffer.new 5)).1 rfl
  · refine (getMedian_contract (CircularBuffer.pushList (CircularBuffer.new 5) [3, 1])).2.1 ?_
    norm_num [CircularBuffer.pushList, CircularBuffer.new, CircularBuffer.push,
      CircularBuffer.getAll]

/-! ## C10: unguarded zero-median division -/

/-- C10.  With detection enabled, at least 5 samples, and a zero median (for
example all samples 0), `checkAnomaly(id, t)` still returns a full result
without raising an error: `threshold = 0`, so `isAnomaly = (t > 0)` for every
sample `t`, while the returned `deviation = t / 0` is the non-finite value
(embedded as `none`) — the division by the median has no zero guard. -/
theorem checkAnomaly_zero_median (ad : AnomalyDetector) (serviceId : String) (t : ℚ)
    (hen : ad.enabled = true) (b : CircularBuffer)
    (hb : mapGet serviceId ad.responseTimes = some b) (h5 : 5 ≤ b.count)
    (hm : b.getMedian = 0) :
    checkAnomaly ad serviceId t =
      AnomalyResult.checked (decide (t > 0)) t 0 b.getAverage 0 ad.multiplier
        none b.count := by
  have hne : ¬ ad.enabled = false := by rw [hen]; decide
  have hlt : ¬ b.count < 5 := Nat.not_lt.mpr h5
  simp only [checkAnomaly, if_neg hne, hb, if_neg hlt, hm, zero_mul]
  norm_num

/-- Witness for C10: five recorded samples of 0 ms and a probe of 7 ms give
`isAnomaly = true` and a non-finite deviation. -/
theorem checkAnomaly_zero_median_witness :
    checkAnomaly
      ({ enabled := true, multiplier := 3, sampleSize := 5,
         responseTimes :=
           [("s", CircularBuffer.pushList (CircularBuffer.new 5) [0, 0, 0, 0, 0])] })
      "s" 7 = AnomalyResult.checked true 7 0 0 0 3 none 5 := by
  have hm : (CircularBuffer.pushList (CircularBuffer.new 5) [0, 0, 0, 0, 0]).getMedian = 0 := by
    norm_num [CircularBuffer.pushList, CircularBuffer.new, CircularBuffer.push,
      CircularBuffer.getAll, CircularBuffer.getMedian,
      List.insertionSort, List.orderedInsert]
  have h := checkAnomaly_zero_median
    ({ enabled := true, multiplier := 3, sampleSize := 5,
       responseTimes :=
         [("s", CircularBuffer.pushList (CircularBuffer.new 5) [0, 0, 0, 0, 0])] })
    "s" 7 rfl
    (CircularBuffer.pushList (CircularBuffer.new 5) [0, 0, 0, 0, 0]) rfl
    (by decide) hm
  rw [h]
  have havg : (CircularBuffer.pushList (CircularBuffer.new 5) [0, 0, 0, 0, 0]).getAverage = 0 := by
    norm_num [CircularBuffer.pushList, CircularBuffer.new, CircularBuffer.push,
      CircularBuffer.getAll, CircularBuffer.getAverage, List.replicate]
  have hcount : (CircularBuffer.pushList (CircularBuffer.new 5) [0, 0, 0, 0, 0]).count = 5 := by
    decide
  rw [havg, hcount]
  norm_num

/-! ## C9: serialization round-trips -/

theorem set_take_succ {α : Type} : ∀ (l : List α) (i : ℕ) (v : α), i < l.length →
    (l.set i v).take (i + 1) = l.take i ++ [v]
  | [], i, v, h => absurd h (by simp)
  | _ :: _, 0, v, _ => by simp
  | x :: xs, i + 1, v, h => by
      have ih := set_take_succ xs i v (by simpa using h)
      simp only [List.set]
      simp [ih]

theorem push_size (b : CircularBuffer) (v : ℚ) : (b.push v).size = b.size := rfl

theorem pushList_size : ∀ (l : List ℚ) (b : CircularBuffer),
    (b.pushList l).size = b.size
  | [], b => rfl
  | v :: l, b => by
      rw [CircularBuffer.pushList, List.foldl_cons,
        ← CircularBuffer.pushList, pushList_size l (b.push v), push_size]

/-- The effect of one `push` on the chronological readout of a well-formed
buffer: append the value, dropping the oldest element once full. -/
theorem getAll_push (b : CircularBuffer) (v : ℚ) (hwf : b.WF) :
    (b.push v).getAll =
      (if b.count < b.size then b.getAll else b.getAll.drop 1) ++ [v] := by
  obtain ⟨hlen, hcnt, hidx, hpart⟩ := hwf
  by_cases hc : b.count < b.size
  · have hic : b.index = b.count := hpart hc
    rw [if_pos hc]
    by_cases hc2 : b.count + 1 < b.size
    · have hgoal : (b.push v).getAll = (b.buffer.set b.index v).take (b.count + 1) := by
        simp [CircularBuffer.push, CircularBuffer.getAll, hc, hc2]
      rw [hgoal, hic, set_take_succ _ _ _ (by omega)]
      simp [CircularBuffer.getAll, hc]
    · have he : b.count + 1 = b.size := by omega
      have hidx2 : ((b.index + 1) % b.size) = 0 := by
        rw [hic, he, Nat.mod_self]
      have hgoal : (b.push v).getAll = b.buffer.set b.index v := by
        simp [CircularBuffer.push, CircularBuffer.getAll, hc, hc2, hidx2]
      rw [hgoal, hic, List.set_eq_take_append_cons_drop, if_pos (by omega)]
      have hdrop : b.buffer.drop (b.count + 1) = [] :=
        List.drop_eq_nil_of_le (by omega)
      rw [hdrop]
      simp [CircularBuffer.getAll, hc]
  · have he : b.count = b.size := le_antisymm hcnt (Nat.not_lt.mp hc)
    rw [if_neg hc]
    have hga : b.getAll = b.buffer.drop b.index ++ b.buffer.take b.index := by
      simp [CircularBuffer.getAll, hc]
    have hpc : ¬ (b.push v).count < (b.push v).size := by
      simp [CircularBuffer.push, hc]
    have hlen1 : 1 ≤ (b.buffer.drop b.index).length := by
      rw [List.length_drop]
      omega
    by_cases hi2 : b.index + 1 < b.size
    · have hidx2 : ((b.index + 1) % b.size) = b.index + 1 := Nat.mod_eq_of_lt hi2
      have hgoal : (b.push v).getAll =
          (b.buffer.set b.index v).drop (b.index + 1) ++
            (b.buffer.set b.index v).take (b.index + 1) := by
        simp only [CircularBuffer.getAll, CircularBuffer.push, hidx2]
        rw [if_neg (by simpa [CircularBuffer.push] using hpc)]
      rw [hgoal, set_take_succ _ _ _ (by omega)]
      have hds : (b.buffer.set b.index v).drop (b.index + 1) =
          b.buffer.drop (b.index + 1) := by
        rw [List.drop_set, if_pos (by omega)]
      rw [hds, hga, List.drop_append_of_le_length hlen1, List.drop_drop]
      simp
    · have he2 : b.index + 1 = b.size := by omega
      have hidx2 : ((b.index + 1) % b.size) = 0 := by rw [he2, Nat.mod_self]
      have hgoal : (b.push v).getAll = b.buffer.set b.index v := by
        simp only [CircularBuffer.getAll, CircularBuffer.push, hidx2]
        rw [if_neg (by simpa [CircularBuffer.push] using hpc)]
        simp
      rw [hgoal, List.set_eq_take_append_cons_drop, if_pos (by omega)]
      have hdrop : b.buffer.drop (b.index + 1) = [] :=
        List.drop_eq_nil_of_le (by omega)
      rw [hdrop, hga, List.drop_append_of_le_length hlen1, List.drop_drop]
      have hdrop1 : b.buffer.drop (b.index + 1) = [] := hdrop
      rw [hdrop1]
      simp

theorem WF_push (b : CircularBuffer) (v : ℚ) (hwf : b.WF) (hs : 0 < b.size) :
    (b.push v).WF := by
  obtain ⟨hlen, hcnt, hidx, hpart⟩ := hwf
  refine ⟨by simp [CircularBuffer.push, hlen], ?_, ?_, ?_⟩
  · by_cases hc : b.count < b.size <;> simp [CircularBuffer.push, hc] <;> omega
  · simp only [CircularBuffer.push]
    exact Nat.mod_lt _ hs
  · intro hlt
    by_cases hc : b.count < b.size
    · simp only [CircularBuffer.push, if_pos hc] at hlt ⊢
      have hic : b.index = b.count := hpart hc
      rw [hic, Nat.mod_eq_of_lt hlt]
    · simp only [CircularBuffer.push, if_neg hc] at hlt
      omega

theorem WF_new (c : ℕ) (hc : 0 < c) : (CircularBuffer.new c).WF := by
  refine ⟨by simp [CircularBuffer.new], by simp [CircularBuffer.new], ?_, fun _ => rfl⟩
  simpa [CircularBuffer.new] using hc

theorem lastN_of_le {n : ℕ} {l : List ℚ} (h : l.length ≤ n) : lastN n l = l := by
  rw [lastN, Nat.sub_eq_zero_of_le h, List.drop_zero]

theorem length_lastN (n : ℕ) (l : List ℚ) : (lastN n l).length = min n l.length := by
  rw [lastN, List.length_drop]
  omega

/-- The state after pushing a whole list into a fresh positive-capacity
buffer: well-formed, `count = min(totalPushes, capacity)`, and the readout is
the last `min(totalPushes, capacity)` pushed values. -/
theorem pushList_invariant (c : ℕ) (hc : 0 < c) (l : List ℚ) :
    ((CircularBuffer.new c).pushList l).WF ∧
    ((CircularBuffer.new c).pushList l).count = min l.length c ∧
    ((CircularBuffer.new c).pushList l).getAll = lastN (min l.length c) l := by
  induction l using List.reverseRecOn with
  | nil =>
      refine ⟨WF_new c hc, by simp [CircularBuffer.pushList, CircularBuffer.new], ?_⟩
      simp [CircularBuffer.pushList, CircularBuffer.new, CircularBuffer.getAll, lastN, hc]
  | append_singleton l v ih =>
      obtain ⟨hwf, hcount, hget⟩ := ih
      have hfold : (CircularBuffer.new c).pushList (l ++ [v]) =
          ((CircularBuffer.new c).pushList l).push v := by
        rw [CircularBuffer.pushList, List.foldl_append]
        rfl
      have hsize : ((CircularBuffer.new c).pushList l).size = c :=
        pushList_size l (CircularBuffer.new c)
      have hlen' : (l ++ [v]).length = l.length + 1 := by simp
      refine ⟨?_, ?_, ?_⟩
      · rw [hfold]
        exact WF_push _ v hwf (by omega)
      · rw [hfold]
        simp only [CircularBuffer.push]
        rw [hcount, hsize, hlen']
        split <;> omega
      · rw [hfold, getAll_push _ v hwf, hcount, hsize, hget, hlen']
        by_cases hlc : l.length < c
        · rw [if_pos (by omega)]
          have h1 : min l.length c = l.length := by omega
          have h2 : min (l.length + 1) c = l.length + 1 := by omega
          rw [h1, h2, lastN_of_le (le_refl _), lastN_of_le (by simp)]
        · rw [if_neg (by omega)]
          have h1 : min l.length c = c := by omega
          have h2 : min (l.length + 1) c = c := by omega
          rw [h1, h2, lastN, lastN, List.drop_drop, hlen',
            List.drop_append_of_le_length (by omega)]
          have h3 : l.length - c + 1 = l.length + 1 - c := by omega
          rw [h3]

theorem getMedian_congr {b1 b2 : CircularBuffer} (h : b1.getAll = b2.getAll) :
    b1.getMedian = b2.getMedian := by
  unfold CircularBuffer.getMedian
  rw [h]

theorem getAverage_congr {b1 b2 : CircularBuffer} (h : b1.getAll = b2.getAll) :
    b1.getAverage = b2.getAverage := by
  unfold CircularBuffer.getAverage
  rw [h]

theorem getMin_congr {b1 b2 : CircularBuffer} (h : b1.getAll = b2.getAll) :
    b1.getMin = b2.getMin := by
  unfold CircularBuffer.getMin
  rw [h]

theorem getMax_congr {b1 b2 : CircularBuffer} (h : b1.getAll = b2.getAll) :
    b1.getMax = b2.getMax := by
  unfold CircularBuffer.getMax
  rw [h]

theorem mapSet_not_mem_append {β : Type} (k : String) (v : β) :
    ∀ (m : JMap β), k ∉ m.map Prod.fst → mapSet k v m = m ++ [(k, v)]
  | [], _ => rfl
  | e :: rest, h => by
      simp only [List.map_cons, List.mem_cons, not_or] at h
      have : ¬ e.1 = k := fun hk => h.1 hk.symm
      simp only [mapSet, if_neg this, List.cons_append]
      rw [mapSet_not_mem_append k v rest h.2]

theorem mapFromEntries_go {β : Type} :
    ∀ (m acc : JMap β), keysNodup m →
      (∀ k ∈ m.map Prod.fst, k ∉ acc.map Prod.fst) →
      m.foldl (fun a e => mapSet e.1 e.2 a) acc = acc ++ m
  | [], acc, _, _ => by simp
  | e :: rest, acc, hnd, hdisj => by
      have h1 := (List.nodup_cons.mp hnd).1
      have h2 := (List.nodup_cons.mp hnd).2
      rw [List.foldl_cons, mapSet_not_mem_append e.1 e.2 acc
        (hdisj e.1 (by simp))]
      rw [mapFromEntries_go rest (acc ++ [e]) h2 ?hd]
      · simp
      case hd =>
        intro k hk
        simp only [List.map_append, List.mem_append, not_or]
        refine ⟨hdisj k (by simp [hk]), ?_⟩
        simp only [List.map_cons, List.map_nil, List.mem_singleton]
        intro hke
        rw [hke] at hk
        exact h1 hk

theorem mapFromEntries_id {β : Type} {m : JMap β} (h : keysNodup m) :
    mapFromEntries m = m := by
  have := mapFromEntries_go m [] h (by simp)
  simpa [mapFromEntries] using this

theorem setFromArray_go :
    ∀ (l acc : List String), l.Nodup → (∀ x ∈ l, x ∉ acc) →
      l.foldl (fun s x => if x ∈ s then s else s ++ [x]) acc = acc ++ l
  | [], acc, _, _ => by simp
  | x :: rest, acc, hnd, hdisj => by
      have h1 := (List.nodup_cons.mp hnd).1
      have h2 := (List.nodup_cons.mp hnd).2
      rw [List.foldl_cons, if_neg (hdisj x (by simp))]
      rw [setFromArray_go rest (acc ++ [x]) h2 ?hd]
      · simp
      case hd =>
        intro y hy
        simp only [List.mem_append, List.mem_singleton, not_or]
        exact ⟨hdisj y (by simp [hy]), fun hyx => h1 (hyx ▸ hy)⟩

theorem setFromArray_id {l : List String} (h : l.Nodup) : setFromArray l = l := by
  have := setFromArray_go l [] h (by simp)
  simpa [setFromArray] using this

/-- C9.  Round-trips: `fromJSON ∘ toJSON` on any buffer reached by pushes into
a positive-capacity buffer yields an equivalent buffer (same capacity, same
`getAll`, hence the same median/mean/min/max); and `load ∘ save` on any State
Engine state (whose JS collections, by construction, have no duplicate keys)
reproduces the same failures, transition logs, acknowledged set, and
TLS-expiry cache. -/
theorem serialization_roundTrip :
    (∀ c : ℕ, 0 < c → ∀ l : List ℚ, ∃ b2 : CircularBuffer,
       CircularBuffer.fromJSON (((CircularBuffer.new c).pushList l).toJSON) = some b2 ∧
       b2.size = ((CircularBuffer.new c).pushList l).size ∧
       b2.getAll = ((CircularBuffer.new c).pushList l).getAll ∧
       b2.getMedian = ((CircularBuffer.new c).pushList l).getMedian ∧
       b2.getAverage = ((CircularBuffer.new c).pushList l).getAverage ∧
       b2.getMin = ((CircularBuffer.new c).pushList l).getMin ∧
       b2.getMax = ((CircularBuffer.new c).pushList l).getMax) ∧
    (∀ (st : StateData) (nowIso : String),
       keysNodup st.failures → keysNodup st.flapping → st.acknowledged.Nodup →
       keysNodup st.sslExpiry → load (save nowIso st) = st) := by
  constructor
  · intro c hc l
    have hsize : ((CircularBuffer.new c).pushList l).size = c :=
      pushList_size l (CircularBuffer.new c)
    have hinv := pushList_invariant c hc l
    have hglen : ((CircularBuffer.new c).pushList l).getAll.length = min l.length c := by
      rw [hinv.2.2, length_lastN]
      omega
    refine ⟨(CircularBuffer.new c).pushList ((CircularBuffer.new c).pushList l).getAll,
      ?_, ?_, ?_, ?_, ?_, ?_, ?_⟩
    · simp only [CircularBuffer.fromJSON, CircularBuffer.toJSON, CircularBuffer.make,
        hsize]
      rw [if_neg (by omega)]
    · rw [pushList_size, hsize]
      rfl
    · have h2 := (pushList_invariant c hc
        (((CircularBuffer.new c).pushList l).getAll)).2.2
      rw [h2, hglen]
      have : min (min l.length c) c = min l.length c := by omega
      rw [this, lastN_of_le (by rw [hglen])]
    · exact getMedian_congr (by
        have h2 := (pushList_invariant c hc
          (((CircularBuffer.new c).pushList l).getAll)).2.2
        rw [h2, hglen]
        have : min (min l.length c) c = min l.length c := by omega
        rw [this, lastN_of_le (by rw [hglen])])
    · exact getAverage_congr (by
        have h2 := (pushList_invariant c hc
          (((CircularBuffer.new c).pushList l).getAll)).2.2
        rw [h2, hglen]
        have : min (min l.length c) c = min l.length c := by omega
        rw [this, lastN_of_le (by rw [hglen])])
    · exact getMin_congr (by
        have h2 := (pushList_invariant c hc
          (((CircularBuffer.new c).pushList l).getAll)).2.2
        rw [h2, hglen]
        have : min (min l.length c) c = min l.length c := by omega
        rw [this, lastN_of_le (by rw [hglen])])
    · exact getMax_congr (by
        have h2 := (pushList_invariant c hc
          (((CircularBuffer.new c).pushList l).getAll)).2.2
        rw [h2, hglen]
        have : min (min l.length c) c = min l.length c := by omega
        rw [this, lastN_of_le (by rw [hglen])])
  · intro st nowIso hf hfl hack hssl
    simp [load, save, mapFromEntries_id hf, mapFromEntries_id hfl,
      mapFromEntries_id hssl, setFromArray_id hack]

/-- Witness for C9: a capacity-2 buffer pushed past wraparound round-trips to
an equivalent buffer, and a concrete populated state survives `save`/`load`. -/
theorem serialization_roundTrip_witness :
    (∃ b2 : CircularBuffer,
       CircularBuffer.fromJSON (((CircularBuffer.new 2).pushList [1, 2, 3]).toJSON) =
         some b2 ∧
       b2.size = ((CircularBuffer.new 2).pushList [1, 2, 3]).size ∧
       b2.getAll = ((CircularBuffer.new 2).pushList [1, 2, 3]).getAll ∧
       b2.getMedian = ((CircularBuffer.new 2).pushList [1, 2, 3]).getMedian ∧
       b2.getAverage = ((CircularBuffer.new 2).pushList [1, 2, 3]).getAverage ∧
       b2.getMin = ((CircularBuffer.new 2).pushList [1, 2, 3]).getMin ∧
       b2.getMax = ((CircularBuffer.new 2).pushList [1, 2, 3]).getMax) ∧
    load (save "2026-10-12"
        ({ failures := [("a", ⟨1, 2, "e", 3⟩)],
           flapping := [("f", [⟨5, "healthy"⟩])],
           acknowledged := ["x", "y"],
           sslExpiry := [("d", "iso")] })) =
      ({ failures := [("a", ⟨1, 2, "e", 3⟩)],
         flapping := [("f", [⟨5, "healthy"⟩])],
         acknowledged := ["x", "y"],
         sslExpiry := [("d", "iso")] }) := by
  constructor
  · exact serialization_roundTrip.1 2 (by norm_num) [1, 2, 3]
  · exact serialization_roundTrip.2
      ({ failures := [("a", ⟨1, 2, "e", 3⟩)],
         flapping := [("f", [⟨5, "healthy"⟩])],
         acknowledged := ["x", "y"],
         sslExpiry := [("d", "iso")] }) "2026-10-12"
      (by simp [keysNodup]) (by simp [keysNodup]) (by simp) (by simp [keysNodup])

end Watchdog
